import Mathlib

/-!
Verification of the pricing core of the moving-cost estimator
(`src/src/App.tsx`).  The component `App` computes, from the form state
`values : MovingInput`, the cost breakdown shown to the user
(lines 27-51 of `App.tsx`).  We embed that computation shallowly:
the JavaScript numbers are modelled as exact rationals and
`Math.round` as Mathlib's `round` (both round halves toward positive
infinity), and the form's `distance` field as an integer, since the UI
feeds the formula `parseInt(...) || 0`.
-/

namespace MovingCost

/-- Values of the `homeSize` string union `'studio' | '1br' | '2br' | '3br'`. -/
inductive HomeSize where
  | studio
  | one_br
  | two_br
  | three_br
deriving DecidableEq, Repr

/-- Values of the `moveType` string union `'local' | 'longDistance'`
(`local` is a Lean keyword, hence `localMove`). -/
inductive MoveType where
  | localMove
  | longDistance
deriving DecidableEq, Repr

/-- The `MovingInput` interface of `App.tsx`. -/
structure MovingInput where
  distance : ℤ
  homeSize : HomeSize
  moveType : MoveType
  packingServices : Bool
  storageNeeded : Bool
deriving DecidableEq, Repr

/-- The table `SIZE_MULTIPLIER = { studio: 1.0, '1br': 1.4, '2br': 1.9, '3br': 2.6 }`. -/
def SIZE_MULTIPLIER : HomeSize → ℚ
  | HomeSize.studio => 1
  | HomeSize.one_br => 14 / 10
  | HomeSize.two_br => 19 / 10
  | HomeSize.three_br => 26 / 10

/-- The derived quantities computed in the body of `App` (lines 43-51). -/
structure CostBreakdown where
  sizeCost : ℤ
  distanceCost : ℤ
  packingCost : ℤ
  storageCost : ℤ
  totalEstimate : ℤ
  lowEstimate : ℤ
  highEstimate : ℤ
  serviceAddons : ℤ
deriving DecidableEq, Repr

/-- The pricing computation of `App` (`App.tsx` lines 27-51), verbatim:
`baseCost` is `400 * m` or `1200 * m` (unrounded, as in the source), and
`sizeCost = Math.round(baseCost)` is taken afterwards (line 43). -/
def estimate (values : MovingInput) : CostBreakdown :=
  let sizeMultiplier : ℚ := SIZE_MULTIPLIER values.homeSize
  let baseCost : ℚ :=
    if values.moveType = MoveType.localMove then 400 * sizeMultiplier
    else 1200 * sizeMultiplier
  let distanceCost : ℤ :=
    if values.moveType = MoveType.localMove then round ((values.distance : ℚ) * 2)
    else round ((values.distance : ℚ) * (75 / 100))
  let sizeCost : ℤ := round baseCost
  let packingCost : ℤ :=
    if values.packingServices then round (300 * sizeMultiplier) else 0
  let storageCost : ℤ := if values.storageNeeded then 250 else 0
  let totalEstimate : ℤ := sizeCost + distanceCost + packingCost + storageCost
  let lowEstimate : ℤ := round ((totalEstimate : ℚ) * (8 / 10))
  let highEstimate : ℤ := round ((totalEstimate : ℚ) * (13 / 10))
  let serviceAddons : ℤ := packingCost + storageCost
  CostBreakdown.mk sizeCost distanceCost packingCost storageCost
    totalEstimate lowEstimate highEstimate serviceAddons

/-- The reference algorithm exactly as the spec words it (section 4.1,
steps 1-7): `baseCost = round(400*m)` resp. `round(1200*m)` inside the
branch, every other rounding applied to the intermediate before summation. -/
def specEstimate (input : MovingInput) : CostBreakdown :=
  let m : ℚ := SIZE_MULTIPLIER input.homeSize
  let baseCost : ℤ :=
    if input.moveType = MoveType.localMove then round (400 * m)
    else round (1200 * m)
  let distanceCost : ℤ :=
    if input.moveType = MoveType.localMove then round ((input.distance : ℚ) * 2)
    else round ((input.distance : ℚ) * (75 / 100))
  let packingCost : ℤ := if input.packingServices then round (300 * m) else 0
  let storageCost : ℤ := if input.storageNeeded then 250 else 0
  let total : ℤ := baseCost + distanceCost + packingCost + storageCost
  let low : ℤ := round ((total : ℚ) * (8 / 10))
  let high : ℤ := round ((total : ℚ) * (13 / 10))
  CostBreakdown.mk baseCost distanceCost packingCost storageCost
    total low high (packingCost + storageCost)

/-- Replace only the `distance` field of the form state. -/
def setDistance (i : MovingInput) (d : ℤ) : MovingInput :=
  MovingInput.mk d i.homeSize i.moveType i.packingServices i.storageNeeded

/-- Replace only the `homeSize` field of the form state. -/
def setHomeSize (i : MovingInput) (h : HomeSize) : MovingInput :=
  MovingInput.mk i.distance h i.moveType i.packingServices i.storageNeeded

/-- Replace only the two add-on toggles of the form state. -/
def setAddons (i : MovingInput) (p s : Bool) : MovingInput :=
  MovingInput.mk i.distance i.homeSize i.moveType p s

/-- Replace only the `packingServices` field of the form state. -/
def setPacking (i : MovingInput) (p : Bool) : MovingInput :=
  MovingInput.mk i.distance i.homeSize i.moveType p i.storageNeeded

/-! Projection lemmas: each field of `estimate values`, by unfolding. -/

/-- Unfolds the `sizeCost` field of `estimate`. -/
theorem estimate_sizeCost (i : MovingInput) :
    (estimate i).sizeCost =
      round (if i.moveType = MoveType.localMove
        then (400 : ℚ) * SIZE_MULTIPLIER i.homeSize
        else (1200 : ℚ) * SIZE_MULTIPLIER i.homeSize) := rfl

/-- Unfolds the `distanceCost` field of `estimate`. -/
theorem estimate_distanceCost (i : MovingInput) :
    (estimate i).distanceCost =
      (if i.moveType = MoveType.localMove then round ((i.distance : ℚ) * 2)
       else round ((i.distance : ℚ) * (75 / 100))) := rfl

/-- Unfolds the `packingCost` field of `estimate`. -/
theorem estimate_packingCost (i : MovingInput) :
    (estimate i).packingCost =
      (if i.packingServices then round ((300 : ℚ) * SIZE_MULTIPLIER i.homeSize) else 0) := rfl

/-- Unfolds the `storageCost` field of `estimate`. -/
theorem estimate_storageCost (i : MovingInput) :
    (estimate i).storageCost = (if i.storageNeeded then 250 else 0) := rfl

/-- Unfolds the `totalEstimate` field of `estimate`. -/
theorem estimate_totalEstimate (i : MovingInput) :
    (estimate i).totalEstimate =
      (estimate i).sizeCost + (estimate i).distanceCost +
        (estimate i).packingCost + (estimate i).storageCost := rfl

/-- Unfolds the `lowEstimate` field of `estimate`. -/
theorem estimate_lowEstimate (i : MovingInput) :
    (estimate i).lowEstimate =
      round (((estimate i).totalEstimate : ℚ) * (8 / 10)) := rfl

/-- Unfolds the `highEstimate` field of `estimate`. -/
theorem estimate_highEstimate (i : MovingInput) :
    (estimate i).highEstimate =
      round (((estimate i).totalEstimate : ℚ) * (13 / 10)) := rfl

/-- Unfolds the `serviceAddons` field of `estimate`. -/
theorem estimate_serviceAddons (i : MovingInput) :
    (estimate i).serviceAddons =
      (estimate i).packingCost + (estimate i).storageCost := rfl

/-! Arithmetic helper lemmas about `round`. -/

/-- Rounding is monotone. -/
theorem round_le_round (x y : ℚ) (h : x ≤ y) : round x ≤ round y := by
  rw [round_eq, round_eq]
  exact Int.floor_mono (by linarith)

/-- Rounding a non-negative rational is non-negative. -/
theorem round_nonneg (x : ℚ) (h : 0 ≤ x) : 0 ≤ round x := by
  have h0 : round (0 : ℚ) ≤ round x := round_le_round 0 x h
  simpa using h0

/-- Every size multiplier is at least one. -/
theorem one_le_sizeMultiplier (h : HomeSize) : 1 ≤ SIZE_MULTIPLIER h := by
  cases h <;> norm_num [SIZE_MULTIPLIER]

/-- The rounded size-scaled base cost is always non-negative. -/
theorem sizeCost_nonneg (i : MovingInput) : 0 ≤ (estimate i).sizeCost := by
  have hm : (1 : ℚ) ≤ SIZE_MULTIPLIER i.homeSize := one_le_sizeMultiplier i.homeSize
  rw [estimate_sizeCost]
  apply round_nonneg
  split <;> nlinarith

/-- With non-negative distance, the distance cost is non-negative. -/
theorem distanceCost_nonneg (i : MovingInput) (h : 0 ≤ i.distance) :
    0 ≤ (estimate i).distanceCost := by
  have hd : (0 : ℚ) ≤ (i.distance : ℚ) := by exact_mod_cast h
  rw [estimate_distanceCost]
  split <;> apply round_nonneg <;> nlinarith

/-- The packing cost is always non-negative. -/
theorem packingCost_nonneg (i : MovingInput) : 0 ≤ (estimate i).packingCost := by
  have hm : (1 : ℚ) ≤ SIZE_MULTIPLIER i.homeSize := one_le_sizeMultiplier i.homeSize
  rw [estimate_packingCost]
  split
  · apply round_nonneg; nlinarith
  · norm_num

/-- The storage cost is always non-negative. -/
theorem storageCost_nonneg (i : MovingInput) : 0 ≤ (estimate i).storageCost := by
  rw [estimate_storageCost]
  split <;> norm_num

/-- With non-negative distance, the total is non-negative. -/
theorem totalEstimate_nonneg (i : MovingInput) (h : 0 ≤ i.distance) :
    0 ≤ (estimate i).totalEstimate := by
  have hs := sizeCost_nonneg i
  have hdc := distanceCost_nonneg i h
  have hp := packingCost_nonneg i
  have hst := storageCost_nonneg i
  rw [estimate_totalEstimate]
  omega

/-- C1: for every input, the estimator computes exactly the reference
algorithm of the spec — branch-selected base and distance costs, rounding
applied to each intermediate before summation, `total` the sum of the four
components, `low`/`high` rounded from `total`, and
`serviceAddons = packingCost + storageCost`. -/
theorem estimate_eq_specEstimate (i : MovingInput) : estimate i = specEstimate i := by
  cases i with
  | mk d h mt p s => cases mt <;> rfl

/-- C2: on the concrete input `{distance: 1000, homeSize: three_plus_bedroom,
moveType: long_distance, packingServices: true, storageNeeded: true}` the
estimator returns `baseCost = 3120`, `distanceCost = 750`,
`packingCost = 780`, `storageCost = 250`, `total = 4900`, `low = 3920`,
`high = 6370`, `serviceAddons = 1030`. -/
theorem estimate_scenarioB :
    estimate (MovingInput.mk 1000 HomeSize.three_br MoveType.longDistance true true) =
      CostBreakdown.mk 3120 750 780 250 4900 3920 6370 1030 := by
  have hmt := eq_false (by decide : ¬ (MoveType.longDistance = MoveType.localMove))
  norm_num [estimate, SIZE_MULTIPLIER, hmt]

/-- C3: for every input, the computed `total` equals the sum
`baseCost + distanceCost + packingCost + storageCost`. -/
theorem totalEstimate_eq_sum_components (i : MovingInput) :
    (estimate i).totalEstimate =
      (estimate i).sizeCost + (estimate i).distanceCost +
        (estimate i).packingCost + (estimate i).storageCost := rfl

/-- C9: changing only the two add-on toggles leaves `baseCost` (the rounded
size-scaled base) and `distanceCost` unchanged. -/
theorem addons_preserve_base_and_distance (i : MovingInput) (p s : Bool) :
    (estimate (setAddons i p s)).sizeCost = (estimate i).sizeCost ∧
      (estimate (setAddons i p s)).distanceCost = (estimate i).distanceCost :=
  ⟨rfl, rfl⟩

/-- C4: on every valid input (distance in [1, 3000]), `low` and `high` are
the rounded 0.8 and 1.3 multiples of `total`, and `low ≤ total ≤ high`. -/
theorem valid_input_range_bounds (i : MovingInput)
    (hlo : 1 ≤ i.distance) (hhi : i.distance ≤ 3000) :
    (estimate i).lowEstimate = round (((estimate i).totalEstimate : ℚ) * (8 / 10)) ∧
      (estimate i).highEstimate = round (((estimate i).totalEstimate : ℚ) * (13 / 10)) ∧
      (estimate i).lowEstimate ≤ (estimate i).totalEstimate ∧
      (estimate i).totalEstimate ≤ (estimate i).highEstimate := by
  have ht : 0 ≤ (estimate i).totalEstimate := totalEstimate_nonneg i (by omega)
  have htq : (0 : ℚ) ≤ ((estimate i).totalEstimate : ℚ) := by exact_mod_cast ht
  refine ⟨rfl, rfl, ?_, ?_⟩
  · rw [estimate_lowEstimate]
    have hle : round (((estimate i).totalEstimate : ℚ) * (8 / 10)) ≤
        round (((estimate i).totalEstimate : ℚ)) :=
      round_le_round _ _ (by nlinarith)
    simpa using hle
  · rw [estimate_highEstimate]
    have hle : round (((estimate i).totalEstimate : ℚ)) ≤
        round (((estimate i).totalEstimate : ℚ) * (13 / 10)) :=
      round_le_round _ _ (by nlinarith)
    simpa using hle

/-- C4 witness: the bounds hold at the concrete valid input
`{distance: 50, homeSize: two_bedroom, moveType: local, no add-ons}`. -/
theorem valid_input_range_bounds_witness :
    (1 : ℤ) ≤ (MovingInput.mk 50 HomeSize.two_br MoveType.localMove false false).distance ∧
      (MovingInput.mk 50 HomeSize.two_br MoveType.localMove false false).distance ≤ 3000 ∧
      ((estimate (MovingInput.mk 50 HomeSize.two_br MoveType.localMove false false)).lowEstimate =
          round (((estimate (MovingInput.mk 50 HomeSize.two_br MoveType.localMove false false)).totalEstimate : ℚ) * (8 / 10)) ∧
        (estimate (MovingInput.mk 50 HomeSize.two_br MoveType.localMove false false)).highEstimate =
          round (((estimate (MovingInput.mk 50 HomeSize.two_br MoveType.localMove false false)).totalEstimate : ℚ) * (13 / 10)) ∧
        (estimate (MovingInput.mk 50 HomeSize.two_br MoveType.localMove false false)).lowEstimate ≤
          (estimate (MovingInput.mk 50 HomeSize.two_br MoveType.localMove false false)).totalEstimate ∧
        (estimate (MovingInput.mk 50 HomeSize.two_br MoveType.localMove false false)).totalEstimate ≤
          (estimate (MovingInput.mk 50 HomeSize.two_br MoveType.localMove false false)).highEstimate) :=
  ⟨by decide, by decide,
    valid_input_range_bounds (MovingInput.mk 50 HomeSize.two_br MoveType.localMove false false)
      (by decide) (by decide)⟩

/-- C5: with all other fields fixed, a larger distance never decreases the
distance cost or the total. -/
theorem distance_mono (i : MovingInput) (d1 d2 : ℤ) (h : d1 ≤ d2) :
    (estimate (setDistance i d1)).distanceCost ≤ (estimate (setDistance i d2)).distanceCost ∧
      (estimate (setDistance i d1)).totalEstimate ≤ (estimate (setDistance i d2)).totalEstimate := by
  have hd : (d1 : ℚ) ≤ (d2 : ℚ) := by exact_mod_cast h
  have hdc : (estimate (setDistance i d1)).distanceCost ≤
      (estimate (setDistance i d2)).distanceCost := by
    rcases i with ⟨d0, hs, mt, p, s⟩
    cases mt
    · show round ((d1 : ℚ) * 2) ≤ round ((d2 : ℚ) * 2)
      exact round_le_round _ _ (by linarith)
    · show round ((d1 : ℚ) * (75 / 100)) ≤ round ((d2 : ℚ) * (75 / 100))
      exact round_le_round _ _ (by linarith)
  refine ⟨hdc, ?_⟩
  have hsz : (estimate (setDistance i d1)).sizeCost = (estimate (setDistance i d2)).sizeCost := rfl
  have hp : (estimate (setDistance i d1)).packingCost =
      (estimate (setDistance i d2)).packingCost := rfl
  have hst : (estimate (setDistance i d1)).storageCost =
      (estimate (setDistance i d2)).storageCost := rfl
  rw [estimate_totalEstimate, estimate_totalEstimate]
  omega

/-- C5 witness: distance monotonicity at distances 10 and 500 of a
concrete long-distance input. -/
theorem distance_mono_witness :
    (10 : ℤ) ≤ 500 ∧
      ((estimate (setDistance (MovingInput.mk 1 HomeSize.one_br MoveType.longDistance true false) 10)).distanceCost ≤
          (estimate (setDistance (MovingInput.mk 1 HomeSize.one_br MoveType.longDistance true false) 500)).distanceCost ∧
        (estimate (setDistance (MovingInput.mk 1 HomeSize.one_br MoveType.longDistance true false) 10)).totalEstimate ≤
          (estimate (setDistance (MovingInput.mk 1 HomeSize.one_br MoveType.longDistance true false) 500)).totalEstimate) :=
  ⟨by decide,
    distance_mono (MovingInput.mk 1 HomeSize.one_br MoveType.longDistance true false) 10 500
      (by decide)⟩

/-- C6: turning `packingServices` on (from off) raises the total by exactly
the rounded `300 * sizeMultiplier[homeSize]`, all other fields fixed. -/
theorem packing_toggle_adds_packingCost (i : MovingInput) (h : i.packingServices = false) :
    (estimate (setPacking i true)).totalEstimate =
      (estimate i).totalEstimate + round ((300 : ℚ) * SIZE_MULTIPLIER i.homeSize) := by
  have hsz : (estimate (setPacking i true)).sizeCost = (estimate i).sizeCost := rfl
  have hdc : (estimate (setPacking i true)).distanceCost = (estimate i).distanceCost := rfl
  have hst : (estimate (setPacking i true)).storageCost = (estimate i).storageCost := rfl
  have hp1 : (estimate (setPacking i true)).packingCost =
      round ((300 : ℚ) * SIZE_MULTIPLIER i.homeSize) := rfl
  have hp0 : (estimate i).packingCost = 0 := by
    rw [estimate_packingCost, h]
    norm_num
  rw [estimate_totalEstimate, estimate_totalEstimate, hsz, hdc, hst, hp1, hp0]
  omega

/-- C6 witness: toggling packing on at the concrete input
`{distance: 50, homeSize: two_bedroom, moveType: local, no add-ons}`. -/
theorem packing_toggle_adds_packingCost_witness :
    (MovingInput.mk 50 HomeSize.two_br MoveType.localMove false false).packingServices = false ∧
      (estimate (setPacking (MovingInput.mk 50 HomeSize.two_br MoveType.localMove false false) true)).totalEstimate =
        (estimate (MovingInput.mk 50 HomeSize.two_br MoveType.localMove false false)).totalEstimate +
          round ((300 : ℚ) *
            SIZE_MULTIPLIER (MovingInput.mk 50 HomeSize.two_br MoveType.localMove false false).homeSize) :=
  ⟨by decide,
    packing_toggle_adds_packingCost (MovingInput.mk 50 HomeSize.two_br MoveType.localMove false false)
      (by decide)⟩

/-- C7 counterexample: at the input with distance -100 (studio, local move,
no add-ons), the breakdown's `distanceCost` is -200, a negative monetary
field, so the claim fails for unrestricted inputs. -/
theorem distanceCost_negative_at_neg_hundred :
    (estimate (MovingInput.mk (-100) HomeSize.studio MoveType.localMove false false)).distanceCost =
      -200 ∧
      (estimate (MovingInput.mk (-100) HomeSize.studio MoveType.localMove false false)).distanceCost < 0 := by
  have hv : (estimate (MovingInput.mk (-100) HomeSize.studio MoveType.localMove false false)).distanceCost = -200 := by
    show round (((-100 : ℤ) : ℚ) * 2) = -200
    rw [show (((-100 : ℤ) : ℚ) * 2) = ((-200 : ℤ) : ℚ) by norm_num]
    exact round_intCast (-200)
  exact ⟨hv, by omega⟩

/-- C7 (amended): for every input with non-negative distance, all eight
monetary fields of the breakdown are non-negative. -/
theorem breakdown_fields_nonneg (i : MovingInput) (h : 0 ≤ i.distance) :
    0 ≤ (estimate i).sizeCost ∧ 0 ≤ (estimate i).distanceCost ∧
      0 ≤ (estimate i).packingCost ∧ 0 ≤ (estimate i).storageCost ∧
      0 ≤ (estimate i).totalEstimate ∧ 0 ≤ (estimate i).lowEstimate ∧
      0 ≤ (estimate i).highEstimate ∧ 0 ≤ (estimate i).serviceAddons := by
  have ht : 0 ≤ (estimate i).totalEstimate := totalEstimate_nonneg i h
  have htq : (0 : ℚ) ≤ ((estimate i).totalEstimate : ℚ) := by exact_mod_cast ht
  refine ⟨sizeCost_nonneg i, distanceCost_nonneg i h, packingCost_nonneg i,
    storageCost_nonneg i, ht, ?_, ?_, ?_⟩
  · rw [estimate_lowEstimate]
    apply round_nonneg
    nlinarith
  · rw [estimate_highEstimate]
    apply round_nonneg
    nlinarith
  · have hp := packingCost_nonneg i
    have hst := storageCost_nonneg i
    rw [estimate_serviceAddons]
    omega

/-- C7 witness: non-negativity of all fields at the concrete input
`{distance: 50, homeSize: two_bedroom, moveType: local, no add-ons}`. -/
theorem breakdown_fields_nonneg_witness :
    (0 : ℤ) ≤ (MovingInput.mk 50 HomeSize.two_br MoveType.localMove false false).distance ∧
      (0 ≤ (estimate (MovingInput.mk 50 HomeSize.two_br MoveType.localMove false false)).sizeCost ∧
        0 ≤ (estimate (MovingInput.mk 50 HomeSize.two_br MoveType.localMove false false)).distanceCost ∧
        0 ≤ (estimate (MovingInput.mk 50 HomeSize.two_br MoveType.localMove false false)).packingCost ∧
        0 ≤ (estimate (MovingInput.mk 50 HomeSize.two_br MoveType.localMove false false)).storageCost ∧
        0 ≤ (estimate (MovingInput.mk 50 HomeSize.two_br MoveType.localMove false false)).totalEstimate ∧
        0 ≤ (estimate (MovingInput.mk 50 HomeSize.two_br MoveType.localMove false false)).lowEstimate ∧
        0 ≤ (estimate (MovingInput.mk 50 HomeSize.two_br MoveType.localMove false false)).highEstimate ∧
        0 ≤ (estimate (MovingInput.mk 50 HomeSize.two_br MoveType.localMove false false)).serviceAddons) :=
  ⟨by decide,
    breakdown_fields_nonneg (MovingInput.mk 50 HomeSize.two_br MoveType.localMove false false)
      (by decide)⟩

/-- C8: a negative distance produces a negative `distanceCost`, computed by
the same unclamped branch formulas `round(distance*2)` (local) and
`round(distance*0.75)` (long distance). -/
theorem negative_distance_negative_distanceCost (i : MovingInput) (h : i.distance < 0) :
    (estimate i).distanceCost < 0 ∧
      (estimate i).distanceCost =
        (if i.moveType = MoveType.localMove then round ((i.distance : ℚ) * 2)
         else round ((i.distance : ℚ) * (75 / 100))) := by
  have hd1 : i.distance ≤ -1 := by omega
  have hdq : (i.distance : ℚ) ≤ -1 := by exact_mod_cast hd1
  refine ⟨?_, rfl⟩
  rw [estimate_distanceCost]
  split <;>
    · rw [round_eq]
      refine Int.floor_lt.mpr ?_
      push_cast
      linarith

/-- C8 witness: the negative distance -5 on a concrete local-move input. -/
theorem negative_distance_negative_distanceCost_witness :
    (MovingInput.mk (-5) HomeSize.studio MoveType.localMove false false).distance < 0 ∧
      ((estimate (MovingInput.mk (-5) HomeSize.studio MoveType.localMove false false)).distanceCost < 0 ∧
        (estimate (MovingInput.mk (-5) HomeSize.studio MoveType.localMove false false)).distanceCost =
          (if (MovingInput.mk (-5) HomeSize.studio MoveType.localMove false false).moveType = MoveType.localMove
           then round (((MovingInput.mk (-5) HomeSize.studio MoveType.localMove false false).distance : ℚ) * 2)
           else round (((MovingInput.mk (-5) HomeSize.studio MoveType.localMove false false).distance : ℚ) * (75 / 100)))) :=
  ⟨by decide,
    negative_distance_negative_distanceCost
      (MovingInput.mk (-5) HomeSize.studio MoveType.localMove false false) (by decide)⟩

/-- C10: with all other fields fixed, a home size with a multiplier at most
that of another gives componentwise smaller-or-equal base cost, packing
cost, and total. -/
theorem homeSize_mono (i : MovingInput) (h1 h2 : HomeSize)
    (h : SIZE_MULTIPLIER h1 ≤ SIZE_MULTIPLIER h2) :
    (estimate (setHomeSize i h1)).sizeCost ≤ (estimate (setHomeSize i h2)).sizeCost ∧
      (estimate (setHomeSize i h1)).packingCost ≤ (estimate (setHomeSize i h2)).packingCost ∧
      (estimate (setHomeSize i h1)).totalEstimate ≤ (estimate (setHomeSize i h2)).totalEstimate := by
  have hsz : (estimate (setHomeSize i h1)).sizeCost ≤ (estimate (setHomeSize i h2)).sizeCost := by
    rcases i with ⟨d, hs0, mt, p, s⟩
    cases mt
    · show round ((400 : ℚ) * SIZE_MULTIPLIER h1) ≤ round ((400 : ℚ) * SIZE_MULTIPLIER h2)
      exact round_le_round _ _ (by linarith)
    · show round ((1200 : ℚ) * SIZE_MULTIPLIER h1) ≤ round ((1200 : ℚ) * SIZE_MULTIPLIER h2)
      exact round_le_round _ _ (by linarith)
  have hpk : (estimate (setHomeSize i h1)).packingCost ≤
      (estimate (setHomeSize i h2)).packingCost := by
    rcases i with ⟨d, hs0, mt, p, s⟩
    cases p
    · exact le_of_eq rfl
    · show round ((300 : ℚ) * SIZE_MULTIPLIER h1) ≤ round ((300 : ℚ) * SIZE_MULTIPLIER h2)
      exact round_le_round _ _ (by linarith)
  refine ⟨hsz, hpk, ?_⟩
  have hdc : (estimate (setHomeSize i h1)).distanceCost =
      (estimate (setHomeSize i h2)).distanceCost := rfl
  have hst : (estimate (setHomeSize i h1)).storageCost =
      (estimate (setHomeSize i h2)).storageCost := rfl
  rw [estimate_totalEstimate, estimate_totalEstimate]
  omega

/-- C10 witness: monotonicity from studio to three-plus-bedroom at a
concrete local-move input with packing on. -/
theorem homeSize_mono_witness :
    SIZE_MULTIPLIER HomeSize.studio ≤ SIZE_MULTIPLIER HomeSize.three_br ∧
      ((estimate (setHomeSize (MovingInput.mk 50 HomeSize.two_br MoveType.localMove true false) HomeSize.studio)).sizeCost ≤
          (estimate (setHomeSize (MovingInput.mk 50 HomeSize.two_br MoveType.localMove true false) HomeSize.three_br)).sizeCost ∧
        (estimate (setHomeSize (MovingInput.mk 50 HomeSize.two_br MoveType.localMove true false) HomeSize.studio)).packingCost ≤
          (estimate (setHomeSize (MovingInput.mk 50 HomeSize.two_br MoveType.localMove true false) HomeSize.three_br)).packingCost ∧
        (estimate (setHomeSize (MovingInput.mk 50 HomeSize.two_br MoveType.localMove true false) HomeSize.studio)).totalEstimate ≤
          (estimate (setHomeSize (MovingInput.mk 50 HomeSize.two_br MoveType.localMove true false) HomeSize.three_br)).totalEstimate) :=
  ⟨by norm_num [SIZE_MULTIPLIER],
    homeSize_mono (MovingInput.mk 50 HomeSize.two_br MoveType.localMove true false)
      HomeSize.studio HomeSize.three_br (by norm_num [SIZE_MULTIPLIER])⟩

end MovingCost
